import Mathlib

/-!
Verification of the Jotter stroke-classification and reconciliation engine.

The JavaScript source is shallowly embedded as follows.

* JS numbers are modelled as exact real numbers (`ℝ`): `Math.sqrt` is
  `Real.sqrt`, `Math.atan2` is `atan2` below, `Math.PI` is `Real.pi`.
  Where the JS code divides by a quantity that can be zero, JS produces
  `Infinity`/`NaN` while Lean's convention gives `x / 0 = 0`; at every such
  site the surrounding threshold comparison rejects the stroke under both
  conventions, and this is noted at the site.
* A stroke is a `List Point`, in temporal order, exactly as the
  `currentStroke` array of the source.
* Boolean-returning JS functions are modelled as `Prop`-valued predicates
  (the proposition that the function returns `true`); their conjunction
  structure follows the early-return structure of the source.
* The external OpenCV collaborator (`cv.arcLength`, `cv.approxPolyDP`,
  `cv.contourArea`, `cv.boundingRect`, `cv.minEnclosingCircle`) is out of
  scope per the specification; a traced contour is modelled as a record of
  the collaborator's outputs (`Contour`).  A classification attempt whose
  rasterize-and-trace pipeline throws is modelled as the outcome `none`.
* The canvas 2d context is modelled by the list of calls issued to it
  (`CanvasOp`), plus a small interpreter `execOps` in which a full-canvas
  `clearRect` erases everything painted so far.
-/

open Classical

noncomputable section

/-- A sample point of a stroke, `{x, y}` in the source. -/
@[ext]
structure Point where
  x : ℝ
  y : ℝ
deriving Inhabited

/-- Result of `getBoundingBox` / `cv.boundingRect`. -/
structure BoundingBox where
  minX : ℝ
  maxX : ℝ
  minY : ℝ
  maxY : ℝ
  width : ℝ
  height : ℝ

/-- JS `Math.atan2(y, x)` (range (-π, π], `atan2 0 0 = 0`). -/
def atan2 (y x : ℝ) : ℝ :=
  if 0 < x then Real.arctan (y / x)
  else if x < 0 ∧ 0 ≤ y then Real.arctan (y / x) + Real.pi
  else if x < 0 ∧ y < 0 then Real.arctan (y / x) - Real.pi
  else if x = 0 ∧ 0 < y then Real.pi / 2
  else if x = 0 ∧ y < 0 then -(Real.pi / 2)
  else 0

/-- `distance(point1, point2)`: Euclidean distance
(`Math.sqrt(Math.pow(point2.x - point1.x, 2) + Math.pow(point2.y - point1.y, 2))`). -/
def distance (point1 point2 : Point) : ℝ :=
  Real.sqrt ((point2.x - point1.x) ^ 2 + (point2.y - point1.y) ^ 2)

/-- `calculateTotalDistance(stroke)`: sum of consecutive distances
(`for (i = 1; i < stroke.length; i++) total += distance(stroke[i-1], stroke[i])`). -/
def calculateTotalDistance : List Point → ℝ
  | p :: q :: rest => distance p q + calculateTotalDistance (q :: rest)
  | _ => 0

/-- `stroke[0]` (the strokes handed to the classifiers are nonempty, so the
default is never consulted by a guarded caller). -/
def firstPt (s : List Point) : Point := s.headD ⟨0, 0⟩

/-- `stroke[stroke.length - 1]`. -/
def lastPt (s : List Point) : Point := s.getLastD ⟨0, 0⟩

/-- `Math.min(...xs)` for a nonempty array. -/
def minList : List ℝ → ℝ
  | [] => 0
  | x :: xs => xs.foldl min x

/-- `Math.max(...xs)` for a nonempty array. -/
def maxList : List ℝ → ℝ
  | [] => 0
  | x :: xs => xs.foldl max x

/-- `getBoundingBox(stroke)`. -/
def getBoundingBox (stroke : List Point) : BoundingBox :=
  let xs := stroke.map Point.x
  let ys := stroke.map Point.y
  { minX := minList xs
    maxX := maxList xs
    minY := minList ys
    maxY := maxList ys
    width := maxList xs - minList xs
    height := maxList ys - minList ys }

/-- `bounds.width / bounds.height` as computed by `isRectangle`/`isCircle`.
When `height = 0` the JS code performs the division anyway and gets
`Infinity` (or `NaN` for `0/0`); in the Lean model the value is `0`.
The aspect-band comparisons reject the stroke under both conventions. -/
def aspectRatio (stroke : List Point) : ℝ :=
  (getBoundingBox stroke).width / (getBoundingBox stroke).height

/-- `calculateCenter(stroke)`: arithmetic mean of the points. -/
def calculateCenter (stroke : List Point) : Point :=
  ⟨(stroke.map Point.x).sum / stroke.length, (stroke.map Point.y).sum / stroke.length⟩

/-- `average(values)`. -/
def average (values : List ℝ) : ℝ := values.sum / values.length

/-- `calculateVariance(values)`: population variance. -/
def calculateVariance (values : List ℝ) : ℝ :=
  ((values.map fun v => (v - average values) ^ 2).sum) / values.length

/-- The `distances` array of `isCircle`: `stroke.map(point => distance(center, point))`. -/
def radii (stroke : List Point) : List ℝ :=
  stroke.map fun p => distance (calculateCenter stroke) p

/-- The `averageRadius` of `isCircle`. -/
def averageRadius (stroke : List Point) : ℝ := average (radii stroke)

/-- `isLine(stroke)` (identical in GridCanvas.js and the web-canvas files):
at least two points, nonzero total path length, and
`straightDistance / totalDistance > 0.9`. -/
def isLine (stroke : List Point) : Prop :=
  2 ≤ stroke.length ∧ calculateTotalDistance stroke ≠ 0 ∧
    distance (firstPt stroke) (lastPt stroke) / calculateTotalDistance stroke > 0.9

/-- The interior triples `(stroke[i-1], stroke[i], stroke[i+1])` scanned by
`findCorners`, in order. -/
def triples : List Point → List (Point × Point × Point)
  | p :: c :: n :: rest => (p, c, n) :: triples (c :: n :: rest)
  | _ => []

/-- The corner test of `findCorners`: the absolute difference of the `atan2`
directions of the incoming and outgoing segments exceeds 30 degrees. -/
def isCornerTriple (prev curr next : Point) : Prop :=
  |atan2 (curr.y - prev.y) (curr.x - prev.x) - atan2 (next.y - curr.y) (next.x - curr.x)|
    > Real.pi / 6

/-- `findCorners(stroke)` (GridCanvas.js web-canvas section, lines 265-287):
interior points whose turning angle exceeds `Math.PI / 6`. -/
def findCorners (stroke : List Point) : List Point :=
  (triples stroke).filterMap fun t =>
    if isCornerTriple t.1 t.2.1 t.2.2 then some t.2.1 else none

namespace GridCanvas

/-- `isRectangle(stroke)` of GridCanvas.js (web-canvas section, lines 307-342):
at least 4 points, closed (`distance(first, last) < THRESHOLD` with
`THRESHOLD = 10`), at least 2 detected corners, and bounding-box aspect
ratio strictly between 0.2 and 5.0. -/
def isRectangle (stroke : List Point) : Prop :=
  4 ≤ stroke.length ∧
    distance (firstPt stroke) (lastPt stroke) < 10 ∧
    2 ≤ (findCorners stroke).length ∧
    aspectRatio stroke > 0.2 ∧ aspectRatio stroke < 5.0

/-- `isCircle(stroke)` of GridCanvas.js (web-canvas section, lines 344-395):
at least 6 points, closed, nonzero average radius, circularity
(`variance(distances) / averageRadius`) below 0.5, and bounding-box aspect
ratio strictly between 0.5 and 2.0. -/
def isCircle (stroke : List Point) : Prop :=
  6 ≤ stroke.length ∧
    distance (firstPt stroke) (lastPt stroke) < 10 ∧
    averageRadius stroke ≠ 0 ∧
    calculateVariance (radii stroke) / averageRadius stroke < 0.5 ∧
    aspectRatio stroke > 0.5 ∧ aspectRatio stroke < 2.0

end GridCanvas

/-- The control-flow condition under which `isRectangle` of GridCanvas.js
evaluates the division `bounds.width / bounds.height` (lines 310-326):
only the point-count guard and the closedness guard precede the division;
no guard tests `bounds.height`.  (The fallback `isRectangle` of the
web-canvas files has exactly the same guards before the same division.) -/
def rectAspectDivReached (stroke : List Point) : Prop :=
  4 ≤ stroke.length ∧ distance (firstPt stroke) (lastPt stroke) < 10

/-- A recognized shape, as produced by `detectShape` and stored in the
`recognizedShapes` array: the union of the object shapes produced by the
heuristic line branch, the part_002 fallback branch, and OpenCV
`classifyShape`. -/
inductive Shape
  | line (stroke : List Point)
  | rectangle (boundingRect : BoundingBox)
  | cvRectangle (vertices : List Point) (boundingRect : BoundingBox)
  | triangle (vertices : List Point)
  | circle (center : Point) (radius : ℝ)
  | unknown
  | freehand

/-- `shape.type === 'circle'`. -/
def shapeIsCircle : Shape → Bool
  | .circle _ _ => true
  | _ => false

namespace WebCanvas

/-- Fallback `isRectangle(stroke)` of part_002 (lines 155-167) and part_003
(lines 680-692), identical in both: at least 4 points, closed, aspect ratio
strictly between 0.2 and 5.0 — no corner condition. -/
def isRectangle (stroke : List Point) : Prop :=
  4 ≤ stroke.length ∧
    distance (firstPt stroke) (lastPt stroke) < 10 ∧
    aspectRatio stroke > 0.2 ∧ aspectRatio stroke < 5.0

/-- Fallback `isCircle(stroke)` of part_002 (lines 169-188) and part_003
(lines 699-718), identical in both: at least 6 points, closed, nonzero
average radius, aspect ratio strictly between 0.5 and 2.0 — no variance
condition. -/
def isCircle (stroke : List Point) : Prop :=
  6 ≤ stroke.length ∧
    distance (firstPt stroke) (lastPt stroke) < 10 ∧
    averageRadius stroke ≠ 0 ∧
    aspectRatio stroke > 0.5 ∧ aspectRatio stroke < 2.0

/-- A traced contour, modelled as the record of the outputs of the external
OpenCV collaborator on it: `vertices` is the polygon approximation
`approxPolyDP(contour, 0.02 * perimeter)` (so `vertices.length` is
`approx.rows`), `perimeter` is `arcLength(contour, true)`, `area` is
`contourArea(contour)`, `boundingRect` is `boundingRect(contour)`, and
`encCenter`/`encRadius` are `minEnclosingCircle(contour)`. -/
structure Contour where
  perimeter : ℝ
  vertices : List Point
  area : ℝ
  boundingRect : BoundingBox
  encCenter : Point
  encRadius : ℝ

/-- `classifyShape(contour)` of part_002 (lines 29-60), identical to the
final part_003 version (lines 508-539): 3 approximated vertices give a
triangle, 4 give a rectangle, and otherwise the contour is a circle exactly
when `4π·area / perimeter²` exceeds 0.85, else `unknown`. -/
def classifyShape (c : Contour) : Shape :=
  if c.vertices.length = 3 then Shape.triangle c.vertices
  else if c.vertices.length = 4 then Shape.cvRectangle c.vertices c.boundingRect
  else if 4 * Real.pi * c.area / (c.perimeter * c.perimeter) > 0.85 then
    Shape.circle c.encCenter c.encRadius
  else Shape.unknown

/-- The contour-analysis loop of `detectShapes`: classify every traced
contour, keeping only results whose type is not `'unknown'`. -/
def detectShapes (contours : List Contour) : List Shape :=
  (contours.map classifyShape).filter fun sh => !(sh matches Shape.unknown)

/-- `detectShapeFallback(stroke)` of part_002 (lines 314-329): rectangle
first, then circle, else freehand.  (No arrow predicate is consulted.) -/
def detectShapeFallback (stroke : List Point) : Shape :=
  if isRectangle stroke then Shape.rectangle (getBoundingBox stroke)
  else if isCircle stroke then
    Shape.circle (calculateCenter stroke) (average (radii stroke))
  else Shape.freehand

/-- `detectShape(stroke)` of part_002 (lines 261-312).  `opencvLoaded` is
the availability flag; `cvResult` is the outcome of the
rasterize-and-trace pipeline on the stroke (`none` when the `try` block
throws).  The line heuristic runs first; with OpenCV unavailable or
throwing, the heuristic fallback is used; otherwise the first classified
contour wins, or the stroke stays freehand. -/
def detectShapeP2 (opencvLoaded : Bool) (cvResult : Option (List Contour))
    (stroke : List Point) : Shape :=
  if isLine stroke then Shape.line stroke
  else if opencvLoaded = false then detectShapeFallback stroke
  else
    match cvResult with
    | none => detectShapeFallback stroke
    | some contours =>
      match detectShapes contours with
      | sh :: _ => sh
      | [] => Shape.freehand

/-- `detectShape(stroke)` of the final part_003 version (lines 810-860):
the line heuristic runs first; otherwise the OpenCV pipeline is attempted
(the `!opencvLoaded` branch there only logs), the first classified contour
wins, an empty result or a thrown pipeline yields freehand. -/
def detectShape (cvResult : Option (List Contour)) (stroke : List Point) : Shape :=
  if isLine stroke then Shape.line stroke
  else
    match cvResult with
    | none => Shape.freehand
    | some contours =>
      match detectShapes contours with
      | sh :: _ => sh
      | [] => Shape.freehand

/-- A call issued to the canvas 2d context. -/
inductive CanvasOp
  | clearRect (x y w h : ℝ)
  | beginPath
  | closePath
  | moveTo (p : Point)
  | lineTo (p : Point)
  | arc (center : Point) (radius startAngle endAngle : ℝ)
  | strokeCall
  | setStrokeStyle (color : String)
  | setLineWidth (w : ℝ)

/-- `drawGrid(ctx)` (part_003, lines 766-789): gray thin strokes, vertical
lines at `x = 0, 40, ..., ≤ width`, horizontal lines at
`y = 0, 40, ..., ≤ height`, then the drawing style is restored. -/
def drawGrid (W H : ℝ) : List CanvasOp :=
  [CanvasOp.setStrokeStyle "#f0f0f0", CanvasOp.setLineWidth 0.5] ++
    ((List.range (if W < 0 then 0 else Nat.floor (W / 40) + 1)).map fun i =>
      [CanvasOp.beginPath, CanvasOp.moveTo ⟨40 * i, 0⟩,
        CanvasOp.lineTo ⟨40 * i, H⟩, CanvasOp.strokeCall]).flatten ++
    ((List.range (if H < 0 then 0 else Nat.floor (H / 40) + 1)).map fun j =>
      [CanvasOp.beginPath, CanvasOp.moveTo ⟨0, 40 * j⟩,
        CanvasOp.lineTo ⟨W, 40 * j⟩, CanvasOp.strokeCall]).flatten ++
    [CanvasOp.setStrokeStyle "#000000", CanvasOp.setLineWidth 2]

/-- `moveTo(vertices[0])` then `lineTo` each further vertex, as in the
rectangle/triangle cases of `drawCleanShape`. -/
def polylineOps : List Point → List CanvasOp
  | [] => []
  | v :: vs => CanvasOp.moveTo v :: vs.map CanvasOp.lineTo

/-- `drawCleanShape(shape)` of the final part_003 version (lines 889-929):
red width-3 stroke style, one path per shape (a line from the raw stroke's
first to last point, a closed polygon through the OpenCV vertices for
rectangles and triangles, a full arc for circles), then the black width-2
drawing style is restored.  Shapes without a `switch` case (the bounding-box
rectangle of the part_002 fallback never reaches this function) add no path
segments. -/
def drawCleanShape (sh : Shape) : List CanvasOp :=
  [CanvasOp.setStrokeStyle "#ff0000", CanvasOp.setLineWidth 3, CanvasOp.beginPath] ++
    (match sh with
      | .line stroke => [CanvasOp.moveTo (firstPt stroke), CanvasOp.lineTo (lastPt stroke)]
      | .cvRectangle vs _ => polylineOps vs ++ [CanvasOp.closePath]
      | .triangle vs => polylineOps vs ++ [CanvasOp.closePath]
      | .circle c r => [CanvasOp.arc c r 0 (2 * Real.pi)]
      | _ => []) ++
    [CanvasOp.strokeCall, CanvasOp.setStrokeStyle "#000000", CanvasOp.setLineWidth 2]

/-- `drawRecognizedShape(newShape)` of the final part_003 version
(lines 869-883): clear the whole canvas, redraw the grid, redraw every
previously recognized shape in insertion order, draw the new shape. -/
def drawRecognizedShape (W H : ℝ) (recognizedShapes : List Shape) (newShape : Shape) :
    List CanvasOp :=
  CanvasOp.clearRect 0 0 W H ::
    (drawGrid W H ++ (recognizedShapes.map drawCleanShape).flatten ++ drawCleanShape newShape)

/-- One canvas call applied to the list of calls still visible on the
surface: a full-canvas `clearRect` erases everything painted so far (the
source only ever issues full-canvas clears), any other call is painted on
top. -/
def applyOp (W H : ℝ) (st : List CanvasOp) (op : CanvasOp) : List CanvasOp :=
  match op with
  | .clearRect x y w h => if x = 0 ∧ y = 0 ∧ w = W ∧ h = H then [] else st ++ [op]
  | _ => st ++ [op]

/-- Run a sequence of canvas calls over a surface state. -/
def execOps (W H : ℝ) (st : List CanvasOp) (ops : List CanvasOp) : List CanvasOp :=
  ops.foldl (applyOp W H) st

/-- `handleMouseUp` of the final part_003 version (lines 958-971), with
`isDrawing = true` (a stroke is completing): strokes of fewer than 2 points
are dropped without classification; freehand results leave the ledger and
the canvas untouched; any other shape is drawn via `drawRecognizedShape`
(against the pre-append ledger) and appended to `recognizedShapes`.
Returns the new ledger and the canvas calls issued. -/
def handleMouseUp (W H : ℝ) (cvResult : Option (List Contour))
    (recognizedShapes : List Shape) (currentStroke : List Point) :
    List Shape × List CanvasOp :=
  if 1 < currentStroke.length then
    let detectedShape := detectShape cvResult currentStroke
    if detectedShape = Shape.freehand then (recognizedShapes, [])
    else (recognizedShapes ++ [detectedShape],
      drawRecognizedShape W H recognizedShapes detectedShape)
  else (recognizedShapes, [])

/-- Processing a sequence of completed strokes: fold `handleMouseUp`'s
ledger update over the strokes. -/
def processStrokes (W H : ℝ) (cvResult : Option (List Contour)) :
    List Shape → List (List Point) → List Shape
  | ledger, [] => ledger
  | ledger, s :: rest =>
    processStrokes W H cvResult (handleMouseUp W H cvResult ledger s).1 rest

end WebCanvas

/-- Concrete stroke for claim C1's witness: two points 100 apart. -/
def lineStroke : List Point := [⟨0, 0⟩, ⟨100, 0⟩]

/-- Concrete closed near-circular stroke for claim C3: eight points of the
circle of radius 5 about the origin, traversed clockwise from (3,4), the
last point within the closedness threshold of the first. -/
def circStroke : List Point :=
  [⟨3, 4⟩, ⟨5, 0⟩, ⟨3, -4⟩, ⟨0, -5⟩, ⟨-3, -4⟩, ⟨-5, 0⟩, ⟨-3, 4⟩, ⟨0, 5⟩]

/-- Concrete degenerate stroke for claim C5: four collinear points on the
x-axis, closed (first and last coincide), bounding box of height 0. -/
def flatStroke : List Point := [⟨0, 0⟩, ⟨1, 0⟩, ⟨2, 0⟩, ⟨0, 0⟩]

/-- Concrete stroke of three identical points (zero path length). -/
def stillStroke : List Point := [⟨1, 1⟩, ⟨1, 1⟩, ⟨1, 1⟩]

/-- Concrete stroke of six identical points (zero average radius). -/
def dotStroke : List Point := [⟨2, 3⟩, ⟨2, 3⟩, ⟨2, 3⟩, ⟨2, 3⟩, ⟨2, 3⟩, ⟨2, 3⟩]

/-- Concrete closed 4-point diamond for claim C7: every point at distance 3
from the centroid (0,0), square bounding box, closed, but fewer than 6
points. -/
def diamondStroke : List Point := [⟨3, 0⟩, ⟨0, 3⟩, ⟨-3, 0⟩, ⟨0, -3⟩]

/-- Concrete 3-point stroke for claim C10's witness. -/
def threeStroke : List Point := [⟨0, 0⟩, ⟨1, 1⟩, ⟨2, 0⟩]

/-- Concrete 1-point stroke for claim C9's witness. -/
def singleStroke : List Point := [⟨7, 7⟩]

end

/-! ### Helper lemmas -/

lemma sqrt_val {a b : ℝ} (hb : 0 ≤ b) (h : b ^ 2 = a) : Real.sqrt a = b := by
  rw [← h]; exact Real.sqrt_sq hb

lemma distance_eval (p q : Point) (r : ℝ) (hr : 0 ≤ r)
    (h : (q.x - p.x) ^ 2 + (q.y - p.y) ^ 2 = r ^ 2) : distance p q = r := by
  rw [distance]; exact sqrt_val hr h.symm

lemma distance_lt (p q : Point) (r : ℝ) (hr : 0 < r)
    (h : (q.x - p.x) ^ 2 + (q.y - p.y) ^ 2 < r ^ 2) : distance p q < r := by
  rw [distance, Real.sqrt_lt' hr]; exact h

lemma distance_ge (p q : Point) (r : ℝ) (hr : 0 ≤ r)
    (h : r ^ 2 ≤ (q.x - p.x) ^ 2 + (q.y - p.y) ^ 2) : r ≤ distance p q := by
  rw [distance, Real.le_sqrt hr (by positivity)]; exact h

lemma distance_nonneg (p q : Point) : 0 ≤ distance p q := Real.sqrt_nonneg _

lemma distance_eq_zero {p q : Point} (h : distance p q = 0) : q = p := by
  rw [distance, Real.sqrt_eq_zero'] at h
  have hx : (q.x - p.x) ^ 2 = 0 := by nlinarith [sq_nonneg (q.x - p.x), sq_nonneg (q.y - p.y)]
  have hy : (q.y - p.y) ^ 2 = 0 := by nlinarith [sq_nonneg (q.x - p.x), sq_nonneg (q.y - p.y)]
  have hx0 : q.x = p.x := by have := pow_eq_zero_iff (n := 2) (by norm_num) |>.1 hx; linarith [this]
  have hy0 : q.y = p.y := by have := pow_eq_zero_iff (n := 2) (by norm_num) |>.1 hy; linarith [this]
  ext <;> assumption

lemma triples_length : ∀ s : List Point, (triples s).length = s.length - 2
  | [] => rfl
  | [_] => rfl
  | [_, _] => rfl
  | _ :: c :: n :: rest => by
    have ih := triples_length (c :: n :: rest)
    simp only [triples, List.length_cons] at ih ⊢
    omega

lemma findCorners_length_le (s : List Point) : (findCorners s).length ≤ s.length - 2 := by
  calc (findCorners s).length ≤ (triples s).length := List.length_filterMap_le _ _
    _ = s.length - 2 := triples_length s

lemma foldl_max_const (v : ℝ) : ∀ l : List ℝ, (∀ a ∈ l, a = v) → l.foldl max v = v
  | [], _ => rfl
  | a :: l, h => by
    have ha : a = v := h a (List.mem_cons_self _ _)
    rw [List.foldl_cons, ha, max_self]
    exact foldl_max_const v l fun b hb => h b (List.mem_cons_of_mem _ hb)

lemma foldl_min_const (v : ℝ) : ∀ l : List ℝ, (∀ a ∈ l, a = v) → l.foldl min v = v
  | [], _ => rfl
  | a :: l, h => by
    have ha : a = v := h a (List.mem_cons_self _ _)
    rw [List.foldl_cons, ha, min_self]
    exact foldl_min_const v l fun b hb => h b (List.mem_cons_of_mem _ hb)

lemma maxList_const {l : List ℝ} {v : ℝ} (hne : l ≠ []) (h : ∀ a ∈ l, a = v) :
    maxList l = v := by
  cases l with
  | nil => exact absurd rfl hne
  | cons x xs =>
    rw [maxList, h x (List.mem_cons_self _ _)]
    exact foldl_max_const v xs fun b hb => h b (List.mem_cons_of_mem _ hb)

lemma minList_const {l : List ℝ} {v : ℝ} (hne : l ≠ []) (h : ∀ a ∈ l, a = v) :
    minList l = v := by
  cases l with
  | nil => exact absurd rfl hne
  | cons x xs =>
    rw [minList, h x (List.mem_cons_self _ _)]
    exact foldl_min_const v xs fun b hb => h b (List.mem_cons_of_mem _ hb)

/-- A stroke whose average radius is zero has all its points at the
centroid, hence a degenerate bounding box and (model) aspect ratio zero. -/
lemma aspectRatio_eq_zero_of_averageRadius_eq_zero {s : List Point}
    (hne : s ≠ []) (h0 : averageRadius s = 0) : aspectRatio s = 0 := by
  have hlen : (0 : ℝ) < (radii s).length := by
    have : s.length ≠ 0 := fun h => hne (List.length_eq_zero.1 h)
    simp [radii]
    omega
  have hnonneg : ∀ r ∈ radii s, 0 ≤ r := by
    intro r hr
    rcases List.mem_map.1 hr with ⟨p, _, rfl⟩
    exact distance_nonneg _ _
  have hsum : (radii s).sum = 0 := by
    rw [averageRadius, average, div_eq_zero_iff] at h0
    rcases h0 with h | h
    · exact h
    · exact absurd h (by positivity)
  have hall : ∀ r ∈ radii s, r = 0 := fun r hr =>
    le_antisymm (le_of_le_of_eq (List.single_le_sum hnonneg r hr) hsum) (hnonneg r hr)
  have hpts : ∀ p ∈ s, p = calculateCenter s := by
    intro p hp
    exact distance_eq_zero (hall _ (List.mem_map_of_mem _ hp))
  have hx : ∀ a ∈ s.map Point.x, a = (calculateCenter s).x := by
    intro a ha
    rcases List.mem_map.1 ha with ⟨p, hp, rfl⟩
    rw [hpts p hp]
  have hy : ∀ a ∈ s.map Point.y, a = (calculateCenter s).y := by
    intro a ha
    rcases List.mem_map.1 ha with ⟨p, hp, rfl⟩
    rw [hpts p hp]
  have hxne : s.map Point.x ≠ [] := by simpa using hne
  have hyne : s.map Point.y ≠ [] := by simpa using hne
  rw [aspectRatio, getBoundingBox]
  simp only [maxList_const hxne hx, minList_const hxne hx,
    maxList_const hyne hy, minList_const hyne hy, sub_self]
  simp

/-- `'unknown'`-typed results never pass the filter of `detectShapes`. -/
lemma unknown_not_mem_detectShapes (contours : List WebCanvas.Contour) :
    Shape.unknown ∉ WebCanvas.detectShapes contours := by
  intro h
  have := List.of_mem_filter h
  simp at this

/-! ### Claim theorems -/

/-- Claim C1: a finalized stroke with at least 2 points and positive path
length whose straightness ratio exceeds 0.9 is classified as a line whose
rendered endpoints are exactly the stroke's first and last points, whatever
the contour pipeline would have returned (it is never consulted). -/
theorem claim_C1 (cvResult : Option (List WebCanvas.Contour)) (s : List Point)
    (h2 : 2 ≤ s.length) (hpos : 0 < calculateTotalDistance s)
    (hr : distance (firstPt s) (lastPt s) / calculateTotalDistance s > 0.9) :
    WebCanvas.detectShape cvResult s = Shape.line s ∧
      WebCanvas.drawCleanShape (Shape.line s) =
        [WebCanvas.CanvasOp.setStrokeStyle "#ff0000", WebCanvas.CanvasOp.setLineWidth 3,
          WebCanvas.CanvasOp.beginPath, WebCanvas.CanvasOp.moveTo (firstPt s),
          WebCanvas.CanvasOp.lineTo (lastPt s), WebCanvas.CanvasOp.strokeCall,
          WebCanvas.CanvasOp.setStrokeStyle "#000000", WebCanvas.CanvasOp.setLineWidth 2] := by
  have hl : isLine s := ⟨h2, ne_of_gt hpos, hr⟩
  exact ⟨by rw [WebCanvas.detectShape.eq_def, if_pos hl], rfl⟩

/-- Witness for claim C1 at the concrete stroke `[(0,0), (100,0)]`. -/
theorem claim_C1_witness :
    2 ≤ lineStroke.length ∧ 0 < calculateTotalDistance lineStroke ∧
      distance (firstPt lineStroke) (lastPt lineStroke) / calculateTotalDistance lineStroke
        > 0.9 ∧
      WebCanvas.detectShape none lineStroke = Shape.line lineStroke := by
  have hd : distance (⟨0, 0⟩ : Point) ⟨100, 0⟩ = 100 :=
    distance_eval _ _ 100 (by norm_num) (by norm_num)
  have htot : calculateTotalDistance lineStroke = 100 := by
    simp [lineStroke, calculateTotalDistance, hd]
  have hfl : distance (firstPt lineStroke) (lastPt lineStroke) = 100 := by
    simpa [lineStroke, firstPt, lastPt] using hd
  have h2 : 2 ≤ lineStroke.length := by norm_num [lineStroke]
  have hpos : 0 < calculateTotalDistance lineStroke := by rw [htot]; norm_num
  have hr : distance (firstPt lineStroke) (lastPt lineStroke) /
      calculateTotalDistance lineStroke > 0.9 := by rw [hfl, htot]; norm_num
  exact ⟨h2, hpos, hr, (claim_C1 none lineStroke h2 hpos hr).1⟩

/-- Claim C6: the GridCanvas heuristic rectangle predicate holds exactly when
the stroke is closed (first-to-last distance strictly below 10), at least 2
corners are detected, and the bounding-box aspect ratio lies strictly
between 0.2 and 5.0.  (The source's 4-point gate is subsumed: 2 corners need
2 interior points.) -/
theorem claim_C6 (s : List Point) :
    GridCanvas.isRectangle s ↔
      (distance (firstPt s) (lastPt s) < 10 ∧ 2 ≤ (findCorners s).length ∧
        0.2 < aspectRatio s ∧ aspectRatio s < 5.0) := by
  constructor
  · rintro ⟨-, h1, h2, h3, h4⟩
    exact ⟨h1, h2, h3, h4⟩
  · rintro ⟨h1, h2, h3, h4⟩
    refine ⟨?_, h1, h2, h3, h4⟩
    have := findCorners_length_le s
    omega

/-- Claim C8: the contour classifier maps 3 approximated vertices to a
triangle, 4 to a rectangle, and any other count to a circle (taken from the
minimum enclosing circle) exactly when `4π·area/perimeter²` exceeds 0.85,
else to `unknown`; `unknown` results are discarded by `detectShapes`. -/
theorem claim_C8 (c : WebCanvas.Contour) :
    (WebCanvas.classifyShape c = Shape.triangle c.vertices ↔ c.vertices.length = 3) ∧
    (WebCanvas.classifyShape c = Shape.cvRectangle c.vertices c.boundingRect ↔
      c.vertices.length = 4) ∧
    (WebCanvas.classifyShape c = Shape.circle c.encCenter c.encRadius ↔
      (c.vertices.length ≠ 3 ∧ c.vertices.length ≠ 4 ∧
        4 * Real.pi * c.area / (c.perimeter * c.perimeter) > 0.85)) ∧
    (WebCanvas.classifyShape c = Shape.unknown ↔
      (c.vertices.length ≠ 3 ∧ c.vertices.length ≠ 4 ∧
        ¬ 4 * Real.pi * c.area / (c.perimeter * c.perimeter) > 0.85)) ∧
    (∀ contours : List WebCanvas.Contour, Shape.unknown ∉ WebCanvas.detectShapes contours) := by
  refine ⟨?_, ?_, ?_, ?_, unknown_not_mem_detectShapes⟩ <;>
    · rw [WebCanvas.classifyShape]
      split_ifs with h3 h4 hcirc <;> simp_all

/-- Claim C9: a completed stroke with fewer than 2 points is silently
discarded by `handleMouseUp`: no classification happens, no recognized-style
drawing is issued, and the ledger is unchanged. -/
theorem claim_C9 (W H : ℝ) (cvResult : Option (List WebCanvas.Contour))
    (ledger : List Shape) (s : List Point) (h : s.length < 2) :
    WebCanvas.handleMouseUp W H cvResult ledger s = (ledger, []) := by
  rw [WebCanvas.handleMouseUp, if_neg (by omega)]

/-- Witness for claim C9 at the concrete single-point stroke `[(7,7)]`. -/
theorem claim_C9_witness :
    singleStroke.length < 2 ∧
      WebCanvas.handleMouseUp 800 600 none [] singleStroke = ([], []) :=
  ⟨by norm_num [singleStroke],
    claim_C9 800 600 none [] singleStroke (by norm_num [singleStroke])⟩

/-- Claim C10: the heuristic circle predicates (both the GridCanvas variant
and the web-canvas fallback variant) reject every stroke with fewer than 6
points, and the rectangle predicates reject every stroke with fewer than 4
points, regardless of geometry. -/
theorem claim_C10 (s : List Point) :
    (s.length < 6 → ¬ GridCanvas.isCircle s ∧ ¬ WebCanvas.isCircle s) ∧
    (s.length < 4 → ¬ GridCanvas.isRectangle s ∧ ¬ WebCanvas.isRectangle s) := by
  refine ⟨fun h => ⟨fun hc => ?_, fun hc => ?_⟩, fun h => ⟨fun hc => ?_, fun hc => ?_⟩⟩ <;>
    · have := hc.1
      omega

/-- Witness for claim C10 at the concrete 3-point stroke. -/
theorem claim_C10_witness :
    ¬ GridCanvas.isCircle threeStroke ∧ ¬ WebCanvas.isCircle threeStroke ∧
      ¬ GridCanvas.isRectangle threeStroke ∧ ¬ WebCanvas.isRectangle threeStroke := by
  obtain ⟨a, b⟩ := (claim_C10 threeStroke).1 (by norm_num [threeStroke])
  obtain ⟨c, d⟩ := (claim_C10 threeStroke).2 (by norm_num [threeStroke])
  exact ⟨a, b, c, d⟩

lemma applyOp_ne_clear (W H : ℝ) (st : List WebCanvas.CanvasOp) (op : WebCanvas.CanvasOp)
    (h : ∀ x y w hh, op ≠ WebCanvas.CanvasOp.clearRect x y w hh) :
    WebCanvas.applyOp W H st op = st ++ [op] := by
  cases op with
  | clearRect x y w hh => exact absurd rfl (h x y w hh)
  | _ => rfl

lemma execOps_no_clear (W H : ℝ) :
    ∀ (ops st : List WebCanvas.CanvasOp),
      (∀ op ∈ ops, ∀ x y w hh, op ≠ WebCanvas.CanvasOp.clearRect x y w hh) →
      WebCanvas.execOps W H st ops = st ++ ops
  | [], st, _ => by simp [WebCanvas.execOps]
  | op :: rest, st, h => by
    have h1 := applyOp_ne_clear W H st op (h op (List.mem_cons_self _ _))
    have h2 := execOps_no_clear W H rest (st ++ [op])
      (fun o ho => h o (List.mem_cons_of_mem _ ho))
    simp only [WebCanvas.execOps, List.foldl_cons] at h2 ⊢
    rw [h1, h2, List.append_assoc]
    rfl

lemma polylineOps_no_clear (vs : List Point) (op : WebCanvas.CanvasOp)
    (hop : op ∈ WebCanvas.polylineOps vs) :
    ∀ x y w hh, op ≠ WebCanvas.CanvasOp.clearRect x y w hh := by
  intro x y w hh hEq
  subst hEq
  cases vs with
  | nil => simp [WebCanvas.polylineOps] at hop
  | cons v vs => simp [WebCanvas.polylineOps] at hop

lemma drawGrid_no_clear (W H : ℝ) (op : WebCanvas.CanvasOp)
    (hop : op ∈ WebCanvas.drawGrid W H) :
    ∀ x y w hh, op ≠ WebCanvas.CanvasOp.clearRect x y w hh := by
  intro x y w hh hEq
  subst hEq
  simp [WebCanvas.drawGrid] at hop

lemma drawCleanShape_no_clear (sh : Shape) (op : WebCanvas.CanvasOp)
    (hop : op ∈ WebCanvas.drawCleanShape sh) :
    ∀ x y w hh, op ≠ WebCanvas.CanvasOp.clearRect x y w hh := by
  intro x y w hh hEq
  subst hEq
  cases sh with
  | cvRectangle vs b =>
    simp [WebCanvas.drawCleanShape] at hop
    exact polylineOps_no_clear vs _ hop x y w hh rfl
  | triangle vs =>
    simp [WebCanvas.drawCleanShape] at hop
    exact polylineOps_no_clear vs _ hop x y w hh rfl
  | _ => simp [WebCanvas.drawCleanShape] at hop

/-- Claim C4: on every recognition, `drawRecognizedShape` issues exactly the
call sequence clear-whole-surface, background grid, every ledger entry in
insertion order, then the new shape; running that sequence over any prior
surface content leaves exactly the grid plus the rendered ledger plus the
new shape — nothing painted before the recognition survives. -/
theorem claim_C4 (W H : ℝ) (ledger : List Shape) (newShape : Shape)
    (prior : List WebCanvas.CanvasOp) :
    WebCanvas.drawRecognizedShape W H ledger newShape =
      WebCanvas.CanvasOp.clearRect 0 0 W H ::
        (WebCanvas.drawGrid W H ++ (ledger.map WebCanvas.drawCleanShape).flatten ++
          WebCanvas.drawCleanShape newShape) ∧
    WebCanvas.execOps W H prior (WebCanvas.drawRecognizedShape W H ledger newShape) =
      WebCanvas.drawGrid W H ++ (ledger.map WebCanvas.drawCleanShape).flatten ++
        WebCanvas.drawCleanShape newShape := by
  refine ⟨rfl, ?_⟩
  have hclear : WebCanvas.applyOp W H prior (WebCanvas.CanvasOp.clearRect 0 0 W H) = [] := by
    simp [WebCanvas.applyOp]
  have hrest : ∀ op ∈ WebCanvas.drawGrid W H ++
      (ledger.map WebCanvas.drawCleanShape).flatten ++ WebCanvas.drawCleanShape newShape,
      ∀ x y w hh, op ≠ WebCanvas.CanvasOp.clearRect x y w hh := by
    intro op hop
    rcases List.mem_append.1 hop with hop | hop
    · rcases List.mem_append.1 hop with hop | hop
      · exact drawGrid_no_clear W H op hop
      · rcases List.mem_flatten.1 hop with ⟨ops, hops, hmem⟩
        rcases List.mem_map.1 hops with ⟨sh, _, rfl⟩
        exact drawCleanShape_no_clear sh op hmem
    · exact drawCleanShape_no_clear newShape op hop
  rw [WebCanvas.drawRecognizedShape]
  show WebCanvas.execOps W H prior (_ :: _) = _
  simp only [WebCanvas.execOps, List.foldl_cons, hclear]
  have := execOps_no_clear W H (WebCanvas.drawGrid W H ++
    (ledger.map WebCanvas.drawCleanShape).flatten ++ WebCanvas.drawCleanShape newShape) [] hrest
  simp only [WebCanvas.execOps] at this
  rw [this]
  simp

lemma handleMouseUp_fst (W H : ℝ) (cv : Option (List WebCanvas.Contour))
    (L : List Shape) (s : List Point) :
    (WebCanvas.handleMouseUp W H cv L s).1 =
      L ++ (if 1 < s.length ∧ WebCanvas.detectShape cv s ≠ Shape.freehand
        then [WebCanvas.detectShape cv s] else []) := by
  rw [WebCanvas.handleMouseUp]
  by_cases h1 : 1 < s.length
  · rw [if_pos h1]
    by_cases h2 : WebCanvas.detectShape cv s = Shape.freehand
    · simp [h2, h1]
    · simp [h2, h1]
  · rw [if_neg h1]
    simp [h1]

lemma processStrokes_spec (W H : ℝ) (cv : Option (List WebCanvas.Contour)) :
    ∀ (strokes : List (List Point)) (L : List Shape),
      (∀ sh ∈ WebCanvas.processStrokes W H cv L strokes, sh ∈ L ∨ sh ≠ Shape.freehand) ∧
      (WebCanvas.processStrokes W H cv L strokes).length = L.length +
        strokes.countP
          (fun s => decide (1 < s.length ∧ WebCanvas.detectShape cv s ≠ Shape.freehand))
  | [], L => by
    rw [WebCanvas.processStrokes]
    exact ⟨fun sh hsh => Or.inl hsh, by simp⟩
  | s :: rest, L => by
    have ih := processStrokes_spec W H cv rest (WebCanvas.handleMouseUp W H cv L s).1
    rw [WebCanvas.processStrokes]
    constructor
    · intro sh hsh
      rcases ih.1 sh hsh with h | h
      · rw [handleMouseUp_fst] at h
        rcases List.mem_append.1 h with h | h
        · exact Or.inl h
        · right
          split at h
          · next hc =>
            rcases List.mem_singleton.1 h with rfl
            exact hc.2
          · simp at h
      · exact Or.inr h
    · rw [ih.2, handleMouseUp_fst, List.countP_cons]
      by_cases hc : 1 < s.length ∧ WebCanvas.detectShape cv s ≠ Shape.freehand
      · simp [hc]
        omega
      · simp [hc]

/-- Claim C2: freehand-classified strokes are never appended to the ledger:
processing any sequence of completed strokes from an empty ledger yields a
ledger whose length is the number of strokes classified as non-freehand
shapes, every entry of which is non-freehand. -/
theorem claim_C2 (W H : ℝ) (cv : Option (List WebCanvas.Contour))
    (strokes : List (List Point)) :
    (∀ sh ∈ WebCanvas.processStrokes W H cv [] strokes, sh ≠ Shape.freehand) ∧
    (WebCanvas.processStrokes W H cv [] strokes).length =
      strokes.countP
        (fun s => decide (1 < s.length ∧ WebCanvas.detectShape cv s ≠ Shape.freehand)) := by
  obtain ⟨hmem, hlen⟩ := processStrokes_spec W H cv strokes []
  refine ⟨fun sh hsh => ?_, by simpa using hlen⟩
  rcases hmem sh hsh with h | h
  · simp at h
  · exact h

lemma aspectRatio_zero_of_degenerate {s : List Point}
    (h : (getBoundingBox s).width = 0 ∨ (getBoundingBox s).height = 0) :
    aspectRatio s = 0 := by
  rw [aspectRatio]
  rcases h with h | h
  · rw [h, zero_div]
  · rw [h, div_zero]

lemma flat_height : (getBoundingBox flatStroke).height = 0 := by
  norm_num [getBoundingBox, maxList, minList, flatStroke, List.foldl, max_def, min_def]

lemma flat_reach : rectAspectDivReached flatStroke := by
  refine ⟨by norm_num [flatStroke], ?_⟩
  have h1 : firstPt flatStroke = ⟨0, 0⟩ := rfl
  have h2 : lastPt flatStroke = ⟨0, 0⟩ := rfl
  rw [h1, h2]
  exact distance_lt _ _ 10 (by norm_num) (by norm_num)

/-- Counterexample to claim C5 as stated: on the degenerate closed stroke
`[(0,0),(1,0),(2,0),(0,0)]` the rectangle predicate reaches the aspect-ratio
division `bounds.width / bounds.height` (its only preceding guards, the
point count and the closedness test, both hold) while the divisor
`bounds.height` is zero — the division is not preceded by a guard on its
divisor.  (The predicate still returns false, via the aspect band.) -/
theorem claim_C5_counterexample :
    rectAspectDivReached flatStroke ∧ (getBoundingBox flatStroke).height = 0 ∧
      ¬ GridCanvas.isRectangle flatStroke := by
  refine ⟨flat_reach, flat_height, ?_⟩
  rintro ⟨-, -, -, h, -⟩
  rw [aspectRatio_zero_of_degenerate (Or.inr flat_height)] at h
  norm_num at h

/-- Claim C5 amended: on degenerate geometry every heuristic predicate
returns not-matched, and the path-length and average-radius divisions are
guarded before dividing; but the bounding-box aspect-ratio division is not
guarded on its divisor — it is reached with `bounds.height = 0` on a closed
degenerate stroke (in JS it then yields `Infinity`/`NaN` and the aspect band
check fails, so the predicate still reports no match). -/
theorem claim_C5_amended :
    (∀ s, calculateTotalDistance s = 0 → ¬ isLine s) ∧
    (∀ s, averageRadius s = 0 → ¬ GridCanvas.isCircle s) ∧
    (∀ s, (getBoundingBox s).width = 0 ∨ (getBoundingBox s).height = 0 →
      ¬ GridCanvas.isRectangle s ∧ ¬ GridCanvas.isCircle s) ∧
    rectAspectDivReached flatStroke ∧ (getBoundingBox flatStroke).height = 0 := by
  refine ⟨fun s h0 hl => hl.2.1 h0, fun s h0 hc => hc.2.2.1 h0,
    fun s hdeg => ?_, flat_reach, flat_height⟩
  have ha := aspectRatio_zero_of_degenerate hdeg
  constructor
  · rintro ⟨-, -, -, h, -⟩
    rw [ha] at h
    norm_num at h
  · rintro ⟨-, -, -, -, h, -⟩
    rw [ha] at h
    norm_num at h

/-- Witness for claim C5 at concrete degenerate strokes: a zero-path-length
stroke is no line, a zero-average-radius stroke is no circle, and the
zero-height stroke matches neither rectangle nor circle. -/
theorem claim_C5_witness :
    ¬ isLine stillStroke ∧ ¬ GridCanvas.isCircle dotStroke ∧
      ¬ GridCanvas.isRectangle flatStroke ∧ ¬ GridCanvas.isCircle flatStroke := by
  have h1 : calculateTotalDistance stillStroke = 0 := by
    norm_num [stillStroke, calculateTotalDistance, distance, Real.sqrt_zero]
  have h2 : averageRadius dotStroke = 0 := by
    norm_num [averageRadius, average, radii, calculateCenter, dotStroke, distance,
      Real.sqrt_zero]
  exact ⟨claim_C5_amended.1 stillStroke h1, claim_C5_amended.2.1 dotStroke h2,
    claim_C5_amended.2.2.1 flatStroke (Or.inr flat_height)⟩

lemma dia_center : calculateCenter diamondStroke = ⟨0, 0⟩ := by
  rw [calculateCenter]
  norm_num [diamondStroke, Point.mk.injEq]

lemma dia_radii : radii diamondStroke = [3, 3, 3, 3] := by
  rw [radii, dia_center]
  simp only [diamondStroke, List.map_cons, List.map_nil]
  rw [distance_eval ⟨0, 0⟩ ⟨3, 0⟩ 3 (by norm_num) (by norm_num),
    distance_eval ⟨0, 0⟩ ⟨0, 3⟩ 3 (by norm_num) (by norm_num),
    distance_eval ⟨0, 0⟩ ⟨-3, 0⟩ 3 (by norm_num) (by norm_num),
    distance_eval ⟨0, 0⟩ ⟨0, -3⟩ 3 (by norm_num) (by norm_num)]

lemma dia_circularity :
    calculateVariance (radii diamondStroke) / averageRadius diamondStroke < 0.5 := by
  rw [dia_radii, averageRadius, dia_radii]
  norm_num [calculateVariance, average]

lemma dia_closed : distance (firstPt diamondStroke) (lastPt diamondStroke) < 10 := by
  have h1 : firstPt diamondStroke = ⟨3, 0⟩ := rfl
  have h2 : lastPt diamondStroke = ⟨0, -3⟩ := rfl
  rw [h1, h2]
  exact distance_lt _ _ 10 (by norm_num) (by norm_num)

lemma dia_aspect : aspectRatio diamondStroke = 1 := by
  norm_num [aspectRatio, getBoundingBox, maxList, minList, diamondStroke, List.foldl,
    max_def, min_def]

/-- Counterexample to claim C7 as stated: the closed 4-point diamond
satisfies closedness, circularity below 0.5, and the square aspect band,
yet `isCircle` rejects it (the source's 6-point gate, absent from the
claim's right-hand side, fires). -/
theorem claim_C7_counterexample :
    ¬ GridCanvas.isCircle diamondStroke ∧
      distance (firstPt diamondStroke) (lastPt diamondStroke) < 10 ∧
      calculateVariance (radii diamondStroke) / averageRadius diamondStroke < 0.5 ∧
      0.5 < aspectRatio diamondStroke ∧ aspectRatio diamondStroke < 2.0 := by
  refine ⟨fun hc => ?_, dia_closed, dia_circularity, ?_, ?_⟩
  · have h6 := hc.1
    norm_num [diamondStroke] at h6
  · rw [dia_aspect]; norm_num
  · rw [dia_aspect]; norm_num

/-- Claim C7 amended: the GridCanvas heuristic circle predicate holds exactly
when the stroke has at least 6 points (the source's implicit gate, which the
claim omitted), is closed, has circularity (population variance of the
centroid distances over their mean) strictly below 0.5, and has bounding-box
aspect ratio strictly between 0.5 and 2.0.  (The source's nonzero
average-radius guard is subsumed: a zero average radius collapses the
bounding box and the aspect band then fails.) -/
theorem claim_C7_amended (s : List Point) :
    GridCanvas.isCircle s ↔
      (6 ≤ s.length ∧ distance (firstPt s) (lastPt s) < 10 ∧
        calculateVariance (radii s) / averageRadius s < 0.5 ∧
        0.5 < aspectRatio s ∧ aspectRatio s < 2.0) := by
  constructor
  · rintro ⟨h1, h2, h3, h4, h5, h6⟩
    exact ⟨h1, h2, h4, h5, h6⟩
  · rintro ⟨h1, h2, h4, h5, h6⟩
    refine ⟨h1, h2, ?_, h4, h5, h6⟩
    intro h0
    have hne : s ≠ [] := by
      intro h
      rw [h] at h1
      simp at h1
    rw [aspectRatio_eq_zero_of_averageRadius_eq_zero hne h0] at h5
    norm_num at h5

lemma distance_le (p q : Point) (r : ℝ) (hr : 0 ≤ r)
    (h : (q.x - p.x) ^ 2 + (q.y - p.y) ^ 2 ≤ r ^ 2) : distance p q ≤ r := by
  rw [distance]
  calc Real.sqrt ((q.x - p.x) ^ 2 + (q.y - p.y) ^ 2) ≤ Real.sqrt (r ^ 2) :=
        Real.sqrt_le_sqrt h
    _ = r := Real.sqrt_sq hr

lemma circ_closed : distance (firstPt circStroke) (lastPt circStroke) < 10 := by
  have h1 : firstPt circStroke = ⟨3, 4⟩ := rfl
  have h2 : lastPt circStroke = ⟨0, 5⟩ := rfl
  rw [h1, h2]
  exact distance_lt _ _ 10 (by norm_num) (by norm_num)

lemma circ_center : calculateCenter circStroke = ⟨0, 0⟩ := by
  rw [calculateCenter]
  norm_num [circStroke, Point.mk.injEq]

lemma circ_radii : radii circStroke = [5, 5, 5, 5, 5, 5, 5, 5] := by
  rw [radii, circ_center]
  simp only [circStroke, List.map_cons, List.map_nil]
  rw [distance_eval ⟨0, 0⟩ ⟨3, 4⟩ 5 (by norm_num) (by norm_num),
    distance_eval ⟨0, 0⟩ ⟨5, 0⟩ 5 (by norm_num) (by norm_num),
    distance_eval ⟨0, 0⟩ ⟨3, -4⟩ 5 (by norm_num) (by norm_num),
    distance_eval ⟨0, 0⟩ ⟨0, -5⟩ 5 (by norm_num) (by norm_num),
    distance_eval ⟨0, 0⟩ ⟨-3, -4⟩ 5 (by norm_num) (by norm_num),
    distance_eval ⟨0, 0⟩ ⟨-5, 0⟩ 5 (by norm_num) (by norm_num),
    distance_eval ⟨0, 0⟩ ⟨-3, 4⟩ 5 (by norm_num) (by norm_num),
    distance_eval ⟨0, 0⟩ ⟨0, 5⟩ 5 (by norm_num) (by norm_num)]

lemma circ_circularity :
    calculateVariance (radii circStroke) / averageRadius circStroke < 0.5 := by
  rw [circ_radii, averageRadius, circ_radii]
  norm_num [calculateVariance, average]

lemma circ_aspect : aspectRatio circStroke = 1 := by
  norm_num [aspectRatio, getBoundingBox, maxList, minList, circStroke, List.foldl,
    max_def, min_def]

lemma circ_notline : ¬ isLine circStroke := by
  have hs1 : (3 : ℝ) ≤ distance ⟨3, 4⟩ ⟨5, 0⟩ := distance_ge _ _ 3 (by norm_num) (by norm_num)
  have hs2 : (3 : ℝ) ≤ distance ⟨5, 0⟩ ⟨3, -4⟩ := distance_ge _ _ 3 (by norm_num) (by norm_num)
  have hs3 : (3 : ℝ) ≤ distance ⟨3, -4⟩ ⟨0, -5⟩ := distance_ge _ _ 3 (by norm_num) (by norm_num)
  have hs4 : (3 : ℝ) ≤ distance ⟨0, -5⟩ ⟨-3, -4⟩ :=
    distance_ge _ _ 3 (by norm_num) (by norm_num)
  have hs5 : (3 : ℝ) ≤ distance ⟨-3, -4⟩ ⟨-5, 0⟩ :=
    distance_ge _ _ 3 (by norm_num) (by norm_num)
  have hs6 : (3 : ℝ) ≤ distance ⟨-5, 0⟩ ⟨-3, 4⟩ := distance_ge _ _ 3 (by norm_num) (by norm_num)
  have hs7 : (3 : ℝ) ≤ distance ⟨-3, 4⟩ ⟨0, 5⟩ := distance_ge _ _ 3 (by norm_num) (by norm_num)
  have htot : (21 : ℝ) ≤ calculateTotalDistance circStroke := by
    simp only [circStroke, calculateTotalDistance]
    linarith
  have hstraight : distance (firstPt circStroke) (lastPt circStroke) ≤ 4 := by
    have h1 : firstPt circStroke = ⟨3, 4⟩ := rfl
    have h2 : lastPt circStroke = ⟨0, 5⟩ := rfl
    rw [h1, h2]
    exact distance_le _ _ 4 (by norm_num) (by norm_num)
  rintro ⟨-, -, hr⟩
  have hpos : (0 : ℝ) < calculateTotalDistance circStroke := by linarith
  rw [gt_iff_lt, lt_div_iff₀ hpos] at hr
  nlinarith

lemma circ_isRectangle : WebCanvas.isRectangle circStroke := by
  refine ⟨by norm_num [circStroke], circ_closed, ?_, ?_⟩ <;>
    · rw [circ_aspect]; norm_num

lemma circ_fallback_result :
    WebCanvas.detectShapeP2 false none circStroke =
      Shape.rectangle (getBoundingBox circStroke) := by
  rw [WebCanvas.detectShapeP2.eq_def, if_neg circ_notline, if_pos rfl,
    WebCanvas.detectShapeFallback, if_pos circ_isRectangle]

/-- Counterexample to claim C3 as stated: with the contour collaborator
unavailable, the concrete closed near-circular stroke `circStroke` (8 points
of a radius-5 circle: closed, circularity 0, square bounding box, not a
line) is classified by the fallback as a Rectangle, not a Circle — the
fallback consults the lenient rectangle predicate first (and never consults
an arrow predicate). -/
theorem claim_C3_counterexample :
    distance (firstPt circStroke) (lastPt circStroke) < 10 ∧
      6 ≤ circStroke.length ∧
      calculateVariance (radii circStroke) / averageRadius circStroke < 0.5 ∧
      0.5 < aspectRatio circStroke ∧ aspectRatio circStroke < 2.0 ∧
      ¬ isLine circStroke ∧
      WebCanvas.detectShapeP2 false none circStroke =
        Shape.rectangle (getBoundingBox circStroke) ∧
      shapeIsCircle (WebCanvas.detectShapeP2 false none circStroke) = false := by
  refine ⟨circ_closed, by norm_num [circStroke], circ_circularity, ?_, ?_,
    circ_notline, circ_fallback_result, ?_⟩
  · rw [circ_aspect]; norm_num
  · rw [circ_aspect]; norm_num
  · rw [circ_fallback_result]
    rfl

/-- Claim C3 amended: with the contour collaborator unavailable, the part_002
orchestrator falls back to the heuristic predicates in the order rectangle
then circle (first match wins; no arrow predicate exists in the fallback),
so a closed near-circular stroke — at least 6 points, endpoints within 10
units, circularity below 0.5, bounding-box aspect ratio strictly between 0.5
and 2.0, not a line — classifies via heuristics alone as a Rectangle,
because the lenient closed-shape rectangle predicate matches first. -/
theorem claim_C3_amended (cv : Option (List WebCanvas.Contour)) (s : List Point)
    (hline : ¬ isLine s) (h6 : 6 ≤ s.length)
    (hclosed : distance (firstPt s) (lastPt s) < 10)
    (_hvar : calculateVariance (radii s) / averageRadius s < 0.5)
    (har1 : 0.5 < aspectRatio s) (har2 : aspectRatio s < 2.0) :
    WebCanvas.detectShapeP2 false cv s = Shape.rectangle (getBoundingBox s) := by
  have hrect : WebCanvas.isRectangle s := ⟨by omega, hclosed, by linarith, by linarith⟩
  rw [WebCanvas.detectShapeP2.eq_def, if_neg hline, if_pos rfl,
    WebCanvas.detectShapeFallback, if_pos hrect]

/-- Witness for claim C3's amended theorem at the concrete near-circular
stroke. -/
theorem claim_C3_witness :
    ¬ isLine circStroke ∧ 6 ≤ circStroke.length ∧
      distance (firstPt circStroke) (lastPt circStroke) < 10 ∧
      calculateVariance (radii circStroke) / averageRadius circStroke < 0.5 ∧
      0.5 < aspectRatio circStroke ∧ aspectRatio circStroke < 2.0 ∧
      WebCanvas.detectShapeP2 false (some []) circStroke =
        Shape.rectangle (getBoundingBox circStroke) := by
  have ha1 : 0.5 < aspectRatio circStroke := by rw [circ_aspect]; norm_num
  have ha2 : aspectRatio circStroke < 2.0 := by rw [circ_aspect]; norm_num
  exact ⟨circ_notline, by norm_num [circStroke], circ_closed, circ_circularity, ha1, ha2,
    claim_C3_amended (some []) circStroke circ_notline (by norm_num [circStroke])
      circ_closed circ_circularity ha1 ha2⟩
